import Mathlib

/-!
Shallow embedding of the WebCon-Python-Utils core: the `OutputBuffer`
recorder (src/OutputBuffer.py) and the pip installer
(src/_install_pip_package.py).  Python strings are modelled by Lean
`String` (a wrapper around `List Char`, matching Python's
sequence-of-code-points view); the two real output streams and the
recorder's buffer together form a `World` record that every operation
threads explicitly.  Each entry of `stdout`/`stderr` is the payload of one
Python `print(...)` call.
-/

/-- The observable console state of the script: the `OutputBuffer`
singleton's `messages` list (`self.messages`), plus everything printed so
far to the real stdout and stderr streams. -/
structure World where
  messages : List String
  stdout : List String
  stderr : List String

/-- The state at interpreter start-up: empty buffer, nothing printed. -/
def World.empty : World := ⟨[], [], []⟩

/-- One `print(s, file=sys.stderr)` call: a direct write to the real stderr
stream, not recorded in the buffer (the installer's fatal reports and the
flush loop use this form). -/
def stderrPrint (w : World) (s : String) : World :=
  { w with stderr := w.stderr ++ [s] }

/-- One `print(s)` call to the real stdout stream. -/
def stdoutPrint (w : World) (s : String) : World :=
  { w with stdout := w.stdout ++ [s] }

/-- `OutputBuffer.print` (src/OutputBuffer.py lines 44-67): compute
`msg_str = str(message)` (the identity here, since messages are already
strings), append it to `self.messages`, then print it to stderr when
`to_stderr` is set and to stdout otherwise.  This model treats the stream
write itself as always succeeding; `printWithEncoding` below refines it
with the text-encoding layer of the streams. -/
def OutputBuffer.print (w : World) (message : String) (to_stderr : Bool) : World :=
  let msg_str := message
  let w1 := { w with messages := w.messages ++ [msg_str] }
  if to_stderr then stderrPrint w1 msg_str else stdoutPrint w1 msg_str

/-- The separator line `"="*80` used by `flush_to_stderr`. -/
def eq80 : String := String.mk (List.replicate 80 '=')

/-- The banner text of the flush header. -/
def dumpBannerLine : String :=
  "[OUTPUT BUFFER] Dumping all stdout messages to stderr due to error:"

/-- `OutputBuffer.flush_to_stderr` (src/OutputBuffer.py lines 69-100): if
`self.messages` is non-empty, print a bordered header to stderr, then every
buffered message in insertion order, then a bordered footer; if the buffer
is empty, do nothing at all. -/
def OutputBuffer.flush_to_stderr (w : World) : World :=
  if w.messages.isEmpty then w
  else
    let w1 := stderrPrint w ("\n" ++ eq80)
    let w2 := stderrPrint w1 dumpBannerLine
    let w3 := stderrPrint w2 eq80
    let w4 := w.messages.foldl stderrPrint w3
    stderrPrint w4 (eq80 ++ "\n")

/-- The three stderr lines of the flush header. -/
def headerBlock : List String := ["\n" ++ eq80, dumpBannerLine, eq80]

/-- The single stderr line of the flush footer. -/
def footerBlock : List String := [eq80 ++ "\n"]

/-- Everything one `flush_to_stderr` call adds to the stderr stream, as a
function of the buffer contents. -/
def replayLines (ms : List String) : List String :=
  if ms.isEmpty then [] else headerBlock ++ ms ++ footerBlock

/-- Run a sequence of `OutputBuffer.print` calls, each given as a
message together with its `to_stderr` destination flag. -/
def emitAll (w : World) (calls : List (String × Bool)) : World :=
  calls.foldl (fun acc c => OutputBuffer.print acc c.1 c.2) w

/-- Python string slicing `s[:n]` over code points. -/
def pyTake (s : String) (n : Nat) : String := ⟨s.data.take n⟩

/-- Python `len(s)` over code points. -/
def pyLen (s : String) : Nat := s.data.length

/-- The string `needle` occurs as a contiguous substring of `hay`. -/
def occursIn (needle hay : String) : Prop :=
  ∃ l r, hay.data = l ++ needle.data ++ r

/-- Exceptions the modelled library calls can raise inside the installer's
`try` block: `subprocess.TimeoutExpired`, or any other `Exception`
carrying its text `str(e)`. -/
inductive PyExc where
  | timeoutExpired
  | other (msg : String)

/-- Outcome of the `subprocess.run` pip-install invocation, an oracle for
the external child process: it completes with an exit code and captured
text streams, exceeds the wall-clock timeout (raising `TimeoutExpired`),
or raises some other exception (`OSError` and the like). -/
inductive RunOutcome where
  | completed (returncode : Int) (stdout stderr : String)
  | timeout
  | raised (msg : String)

/-- The ways `__import__` can fail; all are `Exception` subclasses
(`ModuleNotFoundError`, a broken module raising at import time, the
`ImportError` of a circular load, `SyntaxError`), so all are caught by the
`except Exception` of `_is_package_installed`. -/
inductive ImportFailure where
  | missingModule
  | brokenModule
  | circularLoad
  | syntaxDefect

/-- Oracle for the external world one `_install_pip_package` call touches:
the outcome of the `check_call` pip self-upgrade (`some e` means it raised
an exception with text `e`, in particular `CalledProcessError` on a
non-zero exit; `none` means it returned), the outcome of the main
`subprocess.run`, what `__import__` does on each module name, and the text
`traceback.print_exc()` would write to stderr.  The proxy environment of
Step 3 only influences the child process, so it is absorbed into
`runInstall`. -/
structure PipEnv where
  selfUpgrade : Option String
  runInstall : RunOutcome
  importResult : String → Except ImportFailure Unit
  tracebackText : String

/-- `_is_package_installed` (src/_install_pip_package.py lines 48-82):
`__import__(import_name)` inside `try`, returning `True` on success; the
`except Exception` clause turns every import failure into `False`.  The
function is total: no exception reaches the caller. -/
def _is_package_installed (importResult : String → Except ImportFailure Unit)
    (import_name : String) : Bool :=
  match importResult import_name with
  | .ok _ => true
  | .error _ => false

/-- Line 123 of src/_install_pip_package.py: the Python truthiness default
`import_name = import_name or package_name`, which replaces both `None`
and the empty string by `package_name`. -/
def resolveImport (package_name : String) (import_name : Option String) : String :=
  match import_name with
  | none => package_name
  | some s => if s = "" then package_name else s

/-- The pip install command of Step 2, with `sys.executable` abstracted as
`"python"`; it is handed to the `subprocess.run` oracle. -/
def pipCommand (package_name : String) : List String :=
  ["python", "-m", "pip", "--disable-pip-version-check", "install",
   package_name, "--upgrade", "--no-input", "--no-warn-script-location"]

/-- The informational message of line 126. -/
def attemptMsg (pkg imp : String) : String :=
  "[PIP] Attempting to install/upgrade package: " ++ pkg
    ++ " (import as '" ++ imp ++ "')"

/-- The exit-code message of line 168. -/
def returncodeMsg (rc : Int) : String := "[PIP] Return code: " ++ toString rc

/-- The stdout log message of line 172, embedding `result.stdout[:4000]`. -/
def stdoutLogMsg (out : String) : String :=
  "[PIP][stdout]\n" ++ pyTake out 4000 ++ "\n--- end stdout ---"

/-- The stderr log message of line 176, embedding `result.stderr[:4000]`. -/
def stderrLogMsg (err : String) : String :=
  "[PIP][stderr]\n" ++ pyTake err 4000 ++ "\n--- end stderr ---"

/-- The success message of line 183. -/
def successMsg (imp : String) : String :=
  "[PIP] Successfully installed/upgraded and imported '" ++ imp ++ "'."

/-- The clean-exit-but-not-importable report of line 189. -/
def notImportableMsg (imp : String) : String :=
  "[PIP][ERROR] Installation succeeded, but failed to import '" ++ imp ++ "'."

/-- The non-zero-exit report of line 195. -/
def installFailedMsg (pkg : String) : String :=
  "[PIP][ERROR] Failed to install/upgrade '" ++ pkg ++ "'."

/-- The timeout report of line 202, embedding the configured timeout. -/
def timeoutMsg (pkg : String) (timeout_sec : Int) : String :=
  "[PIP][ERROR] Timeout (" ++ toString timeout_sec
    ++ "s) while installing/upgrading '" ++ pkg ++ "'."

/-- The unexpected-exception report of line 209. -/
def unexpectedMsg (pkg e : String) : String :=
  "[PIP][ERROR] Unexpected error while installing/upgrading '" ++ pkg
    ++ "': " ++ e

/-- The `try` block of `_install_pip_package` (lines 129-197).  A raised
exception is returned as `.error` together with the world state at the
point of the raise, so the `except` handlers can continue from it; a
normal return is `.ok`.  Step 1 is `check_call`, whose failure raises;
Steps 2-3 build `pipCommand` and the proxy environment (absorbed into the
oracle); Step 4 is the `subprocess.run` oracle; Step 5 logs exit code and
captured streams through the recorder, guarded by Python truthiness on the
captured strings; Steps 6-7 decide on `returncode` and importability. -/
def installBody (env : PipEnv) (package_name import_name : String)
    (w : World) : Except (PyExc × World) (Bool × World) :=
  match env.selfUpgrade with
  | some e => .error (.other e, w)
  | none =>
    let _command := pipCommand package_name
    match env.runInstall with
    | .timeout => .error (.timeoutExpired, w)
    | .raised e => .error (.other e, w)
    | .completed rc out err =>
      let w := OutputBuffer.print w (returncodeMsg rc) false
      let w := if out = "" then w else OutputBuffer.print w (stdoutLogMsg out) false
      let w := if err = "" then w else OutputBuffer.print w (stderrLogMsg err) true
      if rc = 0 then
        if _is_package_installed env.importResult import_name then
          .ok (true, OutputBuffer.print w (successMsg import_name) false)
        else
          let w := OutputBuffer.flush_to_stderr w
          .ok (false, stderrPrint w (notImportableMsg import_name))
      else
        let w := OutputBuffer.flush_to_stderr w
        .ok (false, stderrPrint w (installFailedMsg package_name))

/-- `_install_pip_package` (src/_install_pip_package.py lines 87-212):
resolve the import name by truthiness, log the attempt, run the `try`
block, and handle `TimeoutExpired` and generic exceptions by flushing the
recorder to stderr and writing a direct stderr report (plus the traceback
in the generic case).  The function is total — every modelled exception is
caught, so none escapes the installer boundary. -/
def _install_pip_package (env : PipEnv) (package_name : String)
    (import_name : Option String) (timeout_sec : Int) (w : World) :
    Bool × World :=
  let import_name := resolveImport package_name import_name
  let w := OutputBuffer.print w (attemptMsg package_name import_name) false
  match installBody env package_name import_name w with
  | .ok r => r
  | .error (.timeoutExpired, w) =>
      let w := OutputBuffer.flush_to_stderr w
      (false, stderrPrint w (timeoutMsg package_name timeout_sec))
  | .error (.other e, w) =>
      let w := OutputBuffer.flush_to_stderr w
      let w := stderrPrint w (unexpectedMsg package_name e)
      (false, stderrPrint w env.tracebackText)

/-- A text stream's encoder, as Python's `io.TextIOWrapper` configures it:
which characters its codec can represent, and whether its error handler is
strict (`errors="strict"`, raising `UnicodeEncodeError`) or replacing
(`errors="replace"`, substituting `?`). -/
structure StreamCodec where
  encodable : Char → Bool
  strict : Bool

/-- What the stream's `write` does to a string under `StreamCodec`:
encode as-is when every character is representable; otherwise raise when
strict, or substitute the placeholder `?` for each unencodable character
when replacing. -/
def encodeForStream (codec : StreamCodec) (s : String) : Except Unit String :=
  if s.data.all codec.encodable then .ok s
  else if codec.strict then .error ()
  else .ok ⟨s.data.map (fun c => if codec.encodable c then c else '?')⟩

/-- `OutputBuffer.print` with the destination streams' text-encoding layer
made explicit.  The source (src/OutputBuffer.py lines 62-67) appends to
the buffer and then calls `print` with no `try`/`except` and no error
handler of its own, so whatever the stream's write does is final: an
encoding error raised by a strict stream propagates to the caller
(`.error`, carrying the state already mutated by the append), and any
substitution happens only when the stream itself is configured to
replace. -/
def printWithEncoding (outCodec errCodec : StreamCodec) (w : World)
    (message : String) (to_stderr : Bool) : Except World World :=
  let msg_str := message
  let w1 := { w with messages := w.messages ++ [msg_str] }
  if to_stderr then
    match encodeForStream errCodec msg_str with
    | .ok t => .ok { w1 with stderr := w1.stderr ++ [t] }
    | .error _ => .error w1
  else
    match encodeForStream outCodec msg_str with
    | .ok t => .ok { w1 with stdout := w1.stdout ++ [t] }
    | .error _ => .error w1

/-- A stream codec that can encode only ASCII and raises on anything else:
the behavior of a strict `TextIOWrapper` over an ASCII locale. -/
def asciiStrict : StreamCodec := ⟨fun c => c.toNat < 128, true⟩

/-- A captured-stdout text of 4001 characters: 4000 `a`s followed by a
newline.  Its 4000-character truncation is exactly the run of `a`s, and
the wrapper text glued around the truncation by `stdoutLogMsg` starts with
a newline, so the full untruncated text reappears inside the logged
message. -/
def sBig : String := ⟨List.replicate 4000 'a' ++ ['\n']⟩

/-- The concrete installer oracle for the truncation counterexample: the
self-upgrade succeeds, the install completes with exit code 0 and captured
stdout `sBig`, and the import check succeeds. -/
def truncEnv : PipEnv := ⟨none, .completed 0 sBig "", fun _ => .ok (), ""⟩

lemma foldl_stderrPrint (ms : List String) (w : World) :
    ms.foldl stderrPrint w = { w with stderr := w.stderr ++ ms } := by
  induction ms generalizing w with
  | nil => simp [stderrPrint]
  | cons m ms ih => simp [stderrPrint, ih, List.append_assoc]

lemma flush_to_stderr_eq (w : World) :
    OutputBuffer.flush_to_stderr w
      = { w with stderr := w.stderr ++ replayLines w.messages } := by
  by_cases h : w.messages.isEmpty
  · simp [OutputBuffer.flush_to_stderr, replayLines, h]
  · simp [OutputBuffer.flush_to_stderr, replayLines, h, foldl_stderrPrint,
      stderrPrint, headerBlock, footerBlock, List.append_assoc]

lemma emitAll_messages (w : World) (calls : List (String × Bool)) :
    (emitAll w calls).messages = w.messages ++ calls.map Prod.fst := by
  induction calls generalizing w with
  | nil => simp [emitAll]
  | cons c cs ih =>
      have hstep : ∀ v : World,
          (OutputBuffer.print v c.1 c.2).messages = v.messages ++ [c.1] := by
        intro v
        by_cases hb : c.2 <;> simp [OutputBuffer.print, stderrPrint, stdoutPrint, hb]
      calc (emitAll w (c :: cs)).messages
          = (emitAll (OutputBuffer.print w c.1 c.2) cs).messages := rfl
        _ = (OutputBuffer.print w c.1 c.2).messages ++ cs.map Prod.fst := ih _
        _ = w.messages ++ (c :: cs).map Prod.fst := by
            simp [hstep, List.append_assoc]

/-- C5: starting from a fresh recorder, after any finite sequence of
`OutputBuffer.print` calls the buffer holds exactly the textual forms of
the messages in call order, independent of each call's `to_stderr` flag
(`str` is the identity on the string messages modelled here). -/
theorem buffer_records_all_messages (calls : List (String × Bool)) :
    (emitAll World.empty calls).messages = calls.map Prod.fst := by
  simpa using emitAll_messages World.empty calls

/-- C6: `flush_to_stderr` on an empty buffer writes zero lines to stderr
(the state is untouched), and on a non-empty buffer appends to stderr
exactly one header block, then every buffered message in insertion order,
then one footer block — once per call. -/
theorem flush_to_stderr_output (w : World) :
    (w.messages = [] → OutputBuffer.flush_to_stderr w = w) ∧
    (w.messages ≠ [] →
      (OutputBuffer.flush_to_stderr w).stderr
        = w.stderr ++ headerBlock ++ w.messages ++ footerBlock) := by
  constructor
  · intro h
    simp [OutputBuffer.flush_to_stderr, h]
  · intro h
    rw [flush_to_stderr_eq]
    simp [replayLines, h, List.append_assoc]

/-- Witness for C6 at concrete states: the empty buffer produces no output,
and a two-message buffer produces header, both messages, footer. -/
theorem flush_to_stderr_output_witness :
    OutputBuffer.flush_to_stderr World.empty = World.empty ∧
    (OutputBuffer.flush_to_stderr ⟨["a", "b"], [], []⟩).stderr
      = [] ++ headerBlock ++ ["a", "b"] ++ footerBlock :=
  ⟨(flush_to_stderr_output World.empty).1 rfl,
   (flush_to_stderr_output ⟨["a", "b"], [], []⟩).2 (by decide)⟩

/-- C7: `flush_to_stderr` leaves the buffer unchanged (it never clears
`self.messages`), so two successive calls append the full replay output to
stderr twice. -/
theorem flush_to_stderr_preserves_buffer (w : World) :
    (OutputBuffer.flush_to_stderr w).messages = w.messages ∧
    (OutputBuffer.flush_to_stderr (OutputBuffer.flush_to_stderr w)).stderr
      = w.stderr ++ replayLines w.messages ++ replayLines w.messages := by
  constructor
  · rw [flush_to_stderr_eq]
  · rw [flush_to_stderr_eq, flush_to_stderr_eq]

/-- C8: `_is_package_installed` returns `true` exactly when the load
succeeds, and returns `false` for every kind of load failure uniformly; it
is a total function into `Bool`, so no exception reaches the caller. -/
theorem is_package_installed_spec
    (importResult : String → Except ImportFailure Unit) (name : String) :
    (_is_package_installed importResult name = true ↔ importResult name = .ok ()) ∧
    (∀ f : ImportFailure, importResult name = .error f →
      _is_package_installed importResult name = false) := by
  constructor
  · unfold _is_package_installed
    cases h : importResult name with
    | ok u => simp
    | error f => simp
  · intro f hf
    unfold _is_package_installed
    rw [hf]

/-- Witness for C8: a name whose module raises a syntax defect at load
time yields `false`, and a name that loads yields `true`. -/
theorem is_package_installed_spec_witness :
    _is_package_installed (fun _ => .error .syntaxDefect) "demo" = false ∧
    _is_package_installed (fun _ => .ok ()) "demo" = true :=
  ⟨(is_package_installed_spec (fun _ => .error .syntaxDefect) "demo").2
      .syntaxDefect rfl,
   (is_package_installed_spec (fun _ => .ok ()) "demo").1.mpr rfl⟩

/-- C10: an empty-string `import_name` is treated exactly like an absent
one — the truthiness default `import_name or package_name` resolves both
to the package name, so the whole call behaves identically, and in
particular the importability check uses the manager-facing name. -/
theorem empty_import_name_defaults (env : PipEnv) (pkg : String)
    (t : Int) (w : World) :
    resolveImport pkg (some "") = pkg ∧
    _install_pip_package env pkg (some "") t w
      = _install_pip_package env pkg none t w := by
  constructor
  · rfl
  · rfl

/-- C1: the install call returns `true` exactly when the pip self-upgrade
did not raise (so the install child was actually launched), the install
child exited with code zero, and the resolved load-time name imports
successfully right after; on every other path it returns `false`. -/
theorem install_success_iff (env : PipEnv) (pkg : String)
    (imp : Option String) (t : Int) (w : World) :
    (_install_pip_package env pkg imp t w).1 = true ↔
      env.selfUpgrade = none ∧
      (∃ out err, env.runInstall = RunOutcome.completed 0 out err) ∧
      _is_package_installed env.importResult (resolveImport pkg imp) = true := by
  unfold _install_pip_package installBody
  cases henv : env.selfUpgrade with
  | some e => simp
  | none =>
    cases hrun : env.runInstall with
    | timeout => simp
    | raised e => simp
    | completed rc out err =>
      by_cases hrc : rc = 0
      · subst hrc
        by_cases hins :
            _is_package_installed env.importResult (resolveImport pkg imp) = true
        · simp [hins]
        · simp [hins]
      · simp [hrc]

lemma stringDataAppend (a b : String) : (a ++ b).data = a.data ++ b.data := rfl

/-- C2: on every failing path — pip self-upgrade exception, timeout,
install-run exception, non-zero exit, or import verification failure after
a clean exit — the call returns `false` and its stderr ends with a full
replay of the final message buffer followed by that path's one direct
specific report (followed, only on the unexpected-exception paths, by the
traceback); on a timeout the direct report contains the configured timeout
value.  No exception escapes the installer boundary:
`_install_pip_package` is a total function. -/
theorem install_failure_replay_protocol (env : PipEnv) (pkg : String)
    (imp : Option String) (t : Int) (w : World)
    (hfail : (_install_pip_package env pkg imp t w).1 = false) :
    ∃ pre dmsg tail,
      (_install_pip_package env pkg imp t w).2.stderr
        = pre ++ replayLines (_install_pip_package env pkg imp t w).2.messages
            ++ dmsg :: tail ∧
      (∀ e, env.selfUpgrade = some e →
        dmsg = unexpectedMsg pkg e ∧ tail = [env.tracebackText]) ∧
      (env.selfUpgrade = none → env.runInstall = RunOutcome.timeout →
        dmsg = timeoutMsg pkg t ∧ tail = [] ∧ occursIn (toString t) dmsg) ∧
      (env.selfUpgrade = none → ∀ e, env.runInstall = RunOutcome.raised e →
        dmsg = unexpectedMsg pkg e ∧ tail = [env.tracebackText]) ∧
      (env.selfUpgrade = none → ∀ rc out err,
        env.runInstall = RunOutcome.completed rc out err →
        (rc = 0 → dmsg = notImportableMsg (resolveImport pkg imp) ∧ tail = []) ∧
        (rc ≠ 0 → dmsg = installFailedMsg pkg ∧ tail = [])) := by
  cases henv : env.selfUpgrade with
  | some e =>
    refine ⟨w.stderr, unexpectedMsg pkg e, [env.tracebackText], ?_, ?_, ?_, ?_, ?_⟩
    · simp [_install_pip_package, installBody, henv, flush_to_stderr_eq,
        OutputBuffer.print, stdoutPrint, stderrPrint, List.append_assoc]
    · simp
    · simp
    · simp
    · simp
  | none =>
    cases hrun : env.runInstall with
    | timeout =>
      refine ⟨w.stderr, timeoutMsg pkg t, [], ?_, ?_, ?_, ?_, ?_⟩
      · simp [_install_pip_package, installBody, henv, hrun, flush_to_stderr_eq,
          OutputBuffer.print, stdoutPrint, stderrPrint, List.append_assoc]
      · simp
      · refine fun _ _ => ⟨rfl, rfl, ?_⟩
        refine ⟨("[PIP][ERROR] Timeout (").data,
          ("s) while installing/upgrading '" ++ pkg ++ "'.").data, ?_⟩
        simp [timeoutMsg, stringDataAppend, List.append_assoc]
      · simp
      · simp
    | raised e =>
      refine ⟨w.stderr, unexpectedMsg pkg e, [env.tracebackText], ?_, ?_, ?_, ?_, ?_⟩
      · simp [_install_pip_package, installBody, henv, hrun, flush_to_stderr_eq,
          OutputBuffer.print, stdoutPrint, stderrPrint, List.append_assoc]
      · simp
      · simp
      · simp
      · simp
    | completed rc out err =>
      by_cases hrc : rc = 0
      · subst hrc
        by_cases hins :
            _is_package_installed env.importResult (resolveImport pkg imp) = true
        · simp [_install_pip_package, installBody, henv, hrun, hins] at hfail
        · by_cases he : err = ""
          · refine ⟨w.stderr, notImportableMsg (resolveImport pkg imp), [],
              ?_, ?_, ?_, ?_, ?_⟩
            · by_cases ho : out = "" <;>
                simp [_install_pip_package, installBody, henv, hrun, hins, ho, he,
                  flush_to_stderr_eq, OutputBuffer.print, stdoutPrint, stderrPrint,
                  List.append_assoc]
            · simp
            · simp
            · simp
            · simp
          · refine ⟨w.stderr ++ [stderrLogMsg err],
              notImportableMsg (resolveImport pkg imp), [], ?_, ?_, ?_, ?_, ?_⟩
            · by_cases ho : out = "" <;>
                simp [_install_pip_package, installBody, henv, hrun, hins, ho, he,
                  flush_to_stderr_eq, OutputBuffer.print, stdoutPrint, stderrPrint,
                  List.append_assoc]
            · simp
            · simp
            · simp
            · simp
      · by_cases he : err = ""
        · refine ⟨w.stderr, installFailedMsg pkg, [], ?_, ?_, ?_, ?_, ?_⟩
          · by_cases ho : out = "" <;>
              simp [_install_pip_package, installBody, henv, hrun, hrc, ho, he,
                flush_to_stderr_eq, OutputBuffer.print, stdoutPrint, stderrPrint,
                List.append_assoc]
          · simp
          · simp
          · simp
          · simp [hrc]
        · refine ⟨w.stderr ++ [stderrLogMsg err], installFailedMsg pkg, [],
            ?_, ?_, ?_, ?_, ?_⟩
          · by_cases ho : out = "" <;>
              simp [_install_pip_package, installBody, henv, hrun, hrc, ho, he,
                flush_to_stderr_eq, OutputBuffer.print, stdoutPrint, stderrPrint,
                List.append_assoc]
          · simp
          · simp
          · simp
          · simp [hrc]

/-- Witness for C2 at a concrete input: a timed-out install of
`demo-pkg` with a 300-second timeout returns `false`, its stderr ends with
the buffer replay followed by a direct report, and that report is the
timeout message containing the timeout value. -/
theorem install_failure_replay_protocol_witness :
    (_install_pip_package ⟨none, RunOutcome.timeout, fun _ => .ok (), ""⟩
        "demo-pkg" none 300 World.empty).1 = false ∧
    ∃ pre dmsg tail,
      (_install_pip_package ⟨none, RunOutcome.timeout, fun _ => .ok (), ""⟩
          "demo-pkg" none 300 World.empty).2.stderr
        = pre ++ replayLines
            (_install_pip_package ⟨none, RunOutcome.timeout, fun _ => .ok (), ""⟩
                "demo-pkg" none 300 World.empty).2.messages
            ++ dmsg :: tail ∧
      dmsg = timeoutMsg "demo-pkg" 300 ∧ occursIn (toString (300 : Int)) dmsg := by
  obtain ⟨pre, dmsg, tail, h1, _, h3, _, _⟩ :=
    install_failure_replay_protocol
      ⟨none, RunOutcome.timeout, fun _ => .ok (), ""⟩ "demo-pkg" none 300
      World.empty rfl
  obtain ⟨hd, _, ho⟩ := h3 rfl rfl
  exact ⟨rfl, pre, dmsg, tail, h1, hd, ho⟩

/-- Counterexample to C3: two calls identical except for the outcome of
the pip self-upgrade step differ in their result.  When `check_call`
raises (e.g. `CalledProcessError` on a non-zero pip exit), the generic
`except Exception` handler returns `false` even though the install would
have completed with exit code 0 and imported; with the self-upgrade
succeeding, the same call returns `true`.  So a self-upgrade failure is
distinguished from success and does affect the outcome. -/
theorem selfupgrade_failure_affects_outcome :
    (_install_pip_package
        ⟨some "CalledProcessError: exit status 1",
          RunOutcome.completed 0 "" "", fun _ => .ok (), "tb"⟩
        "demo-pkg" none 300 World.empty).1 = false ∧
    (_install_pip_package
        ⟨none, RunOutcome.completed 0 "" "", fun _ => .ok (), "tb"⟩
        "demo-pkg" none 300 World.empty).1 = true :=
  ⟨rfl, rfl⟩

/-- C3 as amended: only the self-upgrade's output is indistinguishable
from success (it is discarded), not its failure.  When the self-upgrade
raises, the call is fatal: the main install is never attempted (the buffer
gains only the attempt message), the buffer is replayed to stderr, the
unexpected-error report and the traceback follow, and the call returns
`false`. -/
theorem selfupgrade_failure_is_fatal (env : PipEnv) (pkg : String)
    (imp : Option String) (t : Int) (w : World) (e : String)
    (h : env.selfUpgrade = some e) :
    (_install_pip_package env pkg imp t w).1 = false ∧
    (_install_pip_package env pkg imp t w).2.messages
      = w.messages ++ [attemptMsg pkg (resolveImport pkg imp)] ∧
    (_install_pip_package env pkg imp t w).2.stderr
      = w.stderr
          ++ replayLines (w.messages ++ [attemptMsg pkg (resolveImport pkg imp)])
          ++ [unexpectedMsg pkg e, env.tracebackText] := by
  refine ⟨?_, ?_, ?_⟩ <;>
    simp [_install_pip_package, installBody, h, flush_to_stderr_eq,
      OutputBuffer.print, stdoutPrint, stderrPrint, List.append_assoc]

/-- Witness for the amended C3 at a concrete input: the fatal behavior at
an explicit environment whose self-upgrade raises. -/
theorem selfupgrade_failure_is_fatal_witness :
    (_install_pip_package
        ⟨some "boom", RunOutcome.completed 0 "" "", fun _ => .ok (), "tb"⟩
        "demo-pkg" none 300 World.empty).1 = false ∧
    (_install_pip_package
        ⟨some "boom", RunOutcome.completed 0 "" "", fun _ => .ok (), "tb"⟩
        "demo-pkg" none 300 World.empty).2.messages
      = [] ++ [attemptMsg "demo-pkg" (resolveImport "demo-pkg" none)] ∧
    (_install_pip_package
        ⟨some "boom", RunOutcome.completed 0 "" "", fun _ => .ok (), "tb"⟩
        "demo-pkg" none 300 World.empty).2.stderr
      = [] ++ replayLines ([] ++ [attemptMsg "demo-pkg" (resolveImport "demo-pkg" none)])
          ++ [unexpectedMsg "demo-pkg" "boom", "tb"] :=
  selfupgrade_failure_is_fatal
    ⟨some "boom", RunOutcome.completed 0 "" "", fun _ => .ok (), "tb"⟩
    "demo-pkg" none 300 World.empty "boom" rfl

/-- Counterexample to C4: `OutputBuffer.print` does not recover from an
encoding mismatch.  With the destination stream strict over ASCII (the
default `errors="strict"` of a non-UTF-8 `sys.stdout`), printing the
message `"µ"` raises: the modelled call returns `.error` — the exception
propagates to the caller with no placeholder re-encoding (the message was
still appended to the buffer first, as the append precedes the write). -/
theorem print_encoding_failure_propagates :
    printWithEncoding asciiStrict asciiStrict World.empty "µ" false
      = .error ⟨["µ"], [], []⟩ := rfl

/-- C4 as amended: the source performs no encoding-error handling of its
own.  When the destination stream can encode the text as-is the call
succeeds and behaves like the plain model, but when the destination is
strict and the text contains an unencodable character the exception
propagates to the caller (with the message already buffered); character
substitution happens only if the stream itself is configured with a
replacing error handler, not by this code. -/
theorem print_encoding_no_recovery (outCodec errCodec : StreamCodec)
    (w : World) (msg : String) (b : Bool) :
    (msg.data.all (if b then errCodec else outCodec).encodable = true →
      printWithEncoding outCodec errCodec w msg b
        = .ok (OutputBuffer.print w msg b)) ∧
    (msg.data.all (if b then errCodec else outCodec).encodable = false →
      (if b then errCodec else outCodec).strict = true →
      printWithEncoding outCodec errCodec w msg b
        = .error { w with messages := w.messages ++ [msg] }) := by
  constructor
  · intro hall
    cases b <;>
      simp_all [printWithEncoding, encodeForStream, OutputBuffer.print,
        stderrPrint, stdoutPrint]
  · intro hall hstrict
    cases b
    · rw [show (if (false : Bool) = true then errCodec else outCodec) = outCodec from rfl]
        at hall hstrict
      simp [printWithEncoding, encodeForStream, hall, hstrict]
    · rw [show (if (true : Bool) = true then errCodec else outCodec) = errCodec from rfl]
        at hall hstrict
      simp [printWithEncoding, encodeForStream, hall, hstrict]

/-- Witness for the amended C4 at a concrete input: `"µ"` is not
ASCII-encodable, and printing it to a strict ASCII stdout propagates the
error. -/
theorem print_encoding_no_recovery_witness :
    "µ".data.all (if false then asciiStrict else asciiStrict).encodable = false ∧
    printWithEncoding asciiStrict asciiStrict World.empty "µ" false
      = .error { World.empty with messages := World.empty.messages ++ ["µ"] } :=
  ⟨by decide,
   (print_encoding_no_recovery asciiStrict asciiStrict World.empty "µ" false).2
     (by decide) rfl⟩

lemma pyTake_data (s : String) (n : Nat) : (pyTake s n).data = s.data.take n := rfl

lemma sBig_data : sBig.data = List.replicate 4000 'a' ++ ['\n'] := rfl

lemma string_eq_empty_iff (s : String) : s = "" ↔ s.data = [] := by
  constructor
  · intro h
    simpa using congrArg String.data h
  · intro h
    cases s
    simp only at h
    subst h
    rfl

lemma pyTake_pyTake (s : String) : pyTake (pyTake s 4000) 4000 = pyTake s 4000 := by
  simp [pyTake, List.take_take]

lemma pyTake_eq_empty_iff (s : String) (n : Nat) (hn : n ≠ 0) :
    pyTake s n = "" ↔ s = "" := by
  rw [string_eq_empty_iff, string_eq_empty_iff, pyTake_data,
    List.take_eq_nil_iff]
  simp [hn]

/-- Counterexample to C9: the full untruncated content can appear in a
logged message.  Take captured stdout of 4001 characters — 4000 `a`s
followed by a newline — on a clean-exit, importable install.  The call
logs `"[PIP][stdout]\n" ++ stdout[:4000] ++ "\n--- end stdout ---"`; the
truncation keeps exactly the 4000 `a`s, and the wrapper that follows
starts with a newline, so the logged message contains the full 4001-char
content as a contiguous substring even though it exceeds the bound. -/
theorem truncation_full_content_reappears :
    4000 < pyLen sBig ∧
    stdoutLogMsg sBig
      ∈ (_install_pip_package truncEnv "demo-pkg" none 300 World.empty).2.messages ∧
    occursIn sBig (stdoutLogMsg sBig) := by
  constructor
  · norm_num [pyLen, sBig_data]
  · refine ⟨?_, ?_⟩
    · have hmsgs : (_install_pip_package truncEnv "demo-pkg" none 300
            World.empty).2.messages
          = [attemptMsg "demo-pkg" "demo-pkg", returncodeMsg 0,
             stdoutLogMsg sBig, successMsg "demo-pkg"] := rfl
      rw [hmsgs]
      simp
    · refine ⟨("[PIP][stdout]\n").data, ("--- end stdout ---").data, ?_⟩
      have htake : (List.replicate 4000 'a' ++ ['\n']).take 4000
          = List.replicate 4000 'a' := by
        have hlen : (List.replicate 4000 'a' : List Char).length = 4000 :=
          List.length_replicate 4000 'a'
        have h := List.take_left (List.replicate 4000 'a') (['\n'] : List Char)
        rw [hlen] at h
        exact h
      have hB : ("\n--- end stdout ---").data
          = '\n' :: ("--- end stdout ---").data := rfl
      simp only [stdoutLogMsg, stringDataAppend, pyTake_data, sBig_data, htake, hB]
      simp only [List.append_assoc, List.singleton_append, List.cons_append,
        List.nil_append]

lemma pyTake_empty_4000 : pyTake "" 4000 = "" := rfl

/-- C9 as amended: the logging truncates to exactly the 4000-character
bound — the logged message embeds `content[:4000]`, whose length is
exactly 4000 whenever the content is longer, and the whole call is
unchanged if the captured stdout/stderr are replaced by their
4000-character truncations, so nothing past the bound ever influences any
logged output.  (The full content is never embedded, though it can
coincidentally reappear as a substring when its characters past the bound
match the wrapper text, as shown separately on the content `sBig`.) -/
theorem truncation_bound (env : PipEnv) (pkg : String) (imp : Option String)
    (t : Int) (w : World) (rc : Int) (out err : String)
    (h : env.runInstall = RunOutcome.completed rc out err) :
    _install_pip_package env pkg imp t w
      = _install_pip_package
          { env with runInstall :=
              RunOutcome.completed rc (pyTake out 4000) (pyTake err 4000) }
          pkg imp t w ∧
    (4000 < pyLen out → pyLen (pyTake out 4000) = 4000) ∧
    (4000 < pyLen err → pyLen (pyTake err 4000) = 4000) := by
  refine ⟨?_, ?_, ?_⟩
  · have hgo := pyTake_eq_empty_iff out 4000 (by norm_num)
    have hge := pyTake_eq_empty_iff err 4000 (by norm_num)
    cases henv : env.selfUpgrade with
    | some e => simp [_install_pip_package, installBody, henv]
    | none =>
      by_cases ho : out = ""
      · by_cases he : err = ""
        · simp [_install_pip_package, installBody, henv, h, ho, he,
            pyTake_empty_4000]
        · have he' : ¬(pyTake err 4000 = "") := fun hx => he (hge.mp hx)
          simp [_install_pip_package, installBody, henv, h, ho, he, he',
            pyTake_empty_4000, stderrLogMsg, pyTake_pyTake]
      · have ho' : ¬(pyTake out 4000 = "") := fun hx => ho (hgo.mp hx)
        by_cases he : err = ""
        · simp [_install_pip_package, installBody, henv, h, ho, ho', he,
            pyTake_empty_4000, stdoutLogMsg, pyTake_pyTake]
        · have he' : ¬(pyTake err 4000 = "") := fun hx => he (hge.mp hx)
          simp [_install_pip_package, installBody, henv, h, ho, ho', he, he',
            stdoutLogMsg, stderrLogMsg, pyTake_pyTake]
  · intro hlt
    simp only [pyLen] at hlt ⊢
    simp only [pyTake_data, List.length_take]
    omega
  · intro hlt
    simp only [pyLen] at hlt ⊢
    simp only [pyTake_data, List.length_take]
    omega

/-- Witness for the amended C9 at a concrete input: on the 4001-character
captured stdout `sBig`, the call equals the call on the truncated capture,
and the truncation has length exactly 4000. -/
theorem truncation_bound_witness :
    _install_pip_package truncEnv "demo-pkg" none 300 World.empty
      = _install_pip_package
          { truncEnv with runInstall :=
              RunOutcome.completed 0 (pyTake sBig 4000) (pyTake "" 4000) }
          "demo-pkg" none 300 World.empty ∧
    pyLen (pyTake sBig 4000) = 4000 := by
  have h := truncation_bound truncEnv "demo-pkg" none 300 World.empty 0 sBig "" rfl
  exact ⟨h.1, h.2.1 (by norm_num [pyLen, sBig_data])⟩
